import Mathlib

/-
Verification of the ppsql helper layer (core.py and utils.py): a thin
convenience wrapper over a PostgreSQL driver.  Query strings are modelled
as lists of characters; driver interaction is modelled by an explicit
trace of driver calls, and fallible paths return an Except value.
-/

namespace PPSQL

/-- Whitespace characters stripped by the Python str.strip method
(ASCII fragment; sufficient for the queries handled here). -/
def isPyWS (c : Char) : Bool :=
  c = ' ' || c = '\t' || c = '\n' || c = '\r' || c = '\x0b' || c = '\x0c'

/-- Left part of Python str.strip: drop leading whitespace. -/
def lstrip (s : List Char) : List Char := s.dropWhile isPyWS

/-- Right part of Python str.strip: drop trailing whitespace. -/
def rstrip (s : List Char) : List Char := (s.reverse.dropWhile isPyWS).reverse

/-- Python str.strip: drop leading and trailing whitespace. -/
def pyStrip (s : List Char) : List Char := rstrip (lstrip s)

/-- Python str.endswith with a one-character suffix. -/
def endsWithChar (s : List Char) (c : Char) : Bool := s.getLast? = some c

/-- core.py check_punc: return the query unchanged when, after stripping
whitespace, it already ends with a semicolon; otherwise append one. -/
def check_punc (query : List Char) : List Char :=
  if endsWithChar (pyStrip query) ';' then query else query ++ [';']

/-- Formalisation of the claim phrase: the string ends with a
single statement terminator, with no duplication (its last character is a
semicolon and the character before it, if any, is not). -/
def endsWithExactlyOneTerminator (s : List Char) : Bool :=
  endsWithChar s ';' && !(endsWithChar s.dropLast ';')

lemma dropWhile_getLast? {p : Char → Bool} {s : List Char} {c : Char}
    (h : s.getLast? = some c) (hc : p c = false) :
    (s.dropWhile p).getLast? = some c := by
  induction s with
  | nil => simp at h
  | cons x xs ih =>
    cases xs with
    | nil =>
      simp only [List.getLast?_singleton, Option.some.injEq] at h
      subst h
      simp [List.dropWhile, hc]
    | cons y ys =>
      rw [List.getLast?_cons_cons] at h
      rw [List.dropWhile_cons]
      by_cases hx : p x = true
      · simp only [hx, if_true]
        exact ih h
      · simp only [Bool.not_eq_true] at hx
        simp only [hx, Bool.false_eq_true, if_false]
        rw [List.getLast?_cons_cons]
        exact h

lemma rstrip_eq_self {s : List Char} {c : Char} (h : s.getLast? = some c)
    (hc : isPyWS c = false) : rstrip s = s := by
  have hh : s.reverse.head? = some c := by rw [List.head?_reverse]; exact h
  unfold rstrip
  cases hs : s.reverse with
  | nil => rw [hs] at hh; simp at hh
  | cons a t =>
    rw [hs] at hh
    simp only [List.head?_cons, Option.some.injEq] at hh
    subst hh
    rw [List.dropWhile_cons]
    simp only [hc, Bool.false_eq_true, if_false]
    rw [← hs, List.reverse_reverse]

lemma pyStrip_getLast {s : List Char} {c : Char} (h : s.getLast? = some c)
    (hc : isPyWS c = false) : (pyStrip s).getLast? = some c := by
  have h1 : (lstrip s).getLast? = some c := dropWhile_getLast? h hc
  unfold pyStrip
  rw [rstrip_eq_self h1 hc]
  exact h1

lemma endsWithChar_iff {s : List Char} {c : Char} :
    endsWithChar s c = true ↔ s.getLast? = some c := by
  simp [endsWithChar]

lemma check_punc_of_terminated {q : List Char}
    (h : endsWithChar (pyStrip q) ';' = true) : check_punc q = q := by
  simp [check_punc, h]

lemma check_punc_of_unterminated {q : List Char}
    (h : endsWithChar (pyStrip q) ';' = false) : check_punc q = q ++ [';'] := by
  simp [check_punc, h]

lemma pyStrip_ends_of_append_semi (q : List Char) :
    endsWithChar (pyStrip (q ++ [';'])) ';' = true := by
  rw [endsWithChar_iff]
  exact pyStrip_getLast (by simp) (by decide)

/-- Python values that may be passed where core.py expects an argument:
integers, booleans (a subclass of int in Python), floats, strings or None. -/
inductive PyVal where
  | int (i : Int)
  | bool (b : Bool)
  | float (x : Rat)
  | str (s : List Char)
  | none
deriving DecidableEq, Repr

/-- Python isinstance(v, int): true for int and for bool, since the Python
bool type is a subclass of int. -/
def PyVal.isInstInt : PyVal → Bool
  | .int _ => true
  | .bool _ => true
  | _ => false

/-- The integer a Python int-like value denotes in comparisons and driver
calls (True is 1, False is 0); only used when isInstInt holds. -/
def PyVal.toInt : PyVal → Int
  | .int i => i
  | .bool b => if b then 1 else 0
  | _ => 0

/-- A database row, as the driver returns it. -/
abbrev Row := List PyVal

/-- Positional parameter values for placeholder substitution. -/
abbrev Vals := List PyVal

/-- The error surface of the layer: the ValueError raised by the count
check, or an error surfaced verbatim from the driver. -/
inductive PyErr where
  | valueError
  | driver (code : Nat)
deriving DecidableEq, Repr

/-- One entry of cursor.description: the column name (desc[0]) together
with the remaining driver metadata fields, which this layer never reads. -/
structure ColDesc where
  name : List Char
  info : List Nat
deriving DecidableEq, Repr

/-- The cursor at the driver boundary: the rows the pending result set
holds and the post-execution metadata. -/
structure Cursor where
  rows : List Row
  description : List ColDesc
deriving DecidableEq, Repr

/-- core.py _get_colnames: the first field of each description entry. -/
def _get_colnames (cur : Cursor) : List (List Char) :=
  cur.description.map ColDesc.name

/-- A call submitted to the driver boundary, recorded in order. -/
inductive DbCall where
  | execute (q : List Char) (vars : Option Vals)
  | fetchall
  | fetchone
  | fetchmany (size : Int)
  | getDescription
  | commit
  | rollback
  | executeValues (q : List Char) (argslist : Option (List Row))
      (template : Option (List Char)) (pageSize : Nat)
deriving DecidableEq, Repr

/-- The shape of a fetch: fetchall and fetchmany return a list of rows,
fetchone returns a single optional row. -/
inductive FetchResult where
  | many (rs : List Row)
  | one (r : Option Row)
deriving DecidableEq, Repr

/-- core.py _select: assert the count is an integer (raising ValueError
otherwise, before any driver call), normalize the query, execute it, fetch
all rows when n is -1, one row when n is 1, and otherwise up to n rows,
then read the column names from the metadata.  Returns the outcome paired
with the trace of driver calls. -/
def _select (query : List Char) (cur : Cursor) (n : PyVal) :
    Except PyErr (FetchResult × List (List Char)) × List DbCall :=
  if n.isInstInt then
    let q := check_punc query
    let fr : FetchResult × DbCall :=
      if n.toInt = -1 then (.many cur.rows, .fetchall)
      else if n.toInt = 1 then (.one cur.rows.head?, .fetchone)
      else (.many (cur.rows.take n.toInt.toNat), .fetchmany n.toInt)
    (.ok (fr.1, _get_colnames cur), [.execute q Option.none, fr.2, .getDescription])
  else
    (.error .valueError, [])

/-- core.py commit_query: normalize the query, execute it with the given
values, and commit.  The driver outcome of the execute call is a
parameter: on a driver error the error propagates and no further driver
call is made. -/
def commit_query (query : List Char) (vals : Option Vals)
    (execOutcome : Option PyErr) : Except PyErr Unit × List DbCall :=
  let q := check_punc query
  match execOutcome with
  | Option.some e => (.error e, [.execute q vals])
  | Option.none => (.ok (), [.execute q vals, .commit])

/-- A pandas data frame on the input side of bulk insert: its rows of
values in column order (df.values). -/
structure DataFrame where
  values : List Row
deriving DecidableEq, Repr

/-- core.py pandas2tuples: each row of df.values converted to a tuple of
native scalars (the identity on this model of rows). -/
def pandas2tuples (df : DataFrame) : List Row :=
  df.values.map (fun x => x)

/-- core.py insert_from_tuples: normalize the query, submit one
execute_values call with template None and page_size 1000, then commit.
On a driver error the error propagates and no commit is made. -/
def insert_from_tuples (query : List Char) (tuples : Option (List Row))
    (execOutcome : Option PyErr) : Except PyErr Unit × List DbCall :=
  let q := check_punc query
  match execOutcome with
  | Option.some e => (.error e, [.executeValues q tuples Option.none 1000])
  | Option.none =>
      (.ok (), [.executeValues q tuples Option.none 1000, .commit])

/-- PyPostgreSql.insert: when a data frame is supplied and tuples is
unset, derive the tuples from the frame; then delegate to
insert_from_tuples. -/
def PyPostgreSql.insert (query : List Char) (tuples : Option (List Row))
    (df : Option DataFrame) (execOutcome : Option PyErr) :
    Except PyErr Unit × List DbCall :=
  let tuples :=
    match df, tuples with
    | Option.some d, Option.none => Option.some (pandas2tuples d)
    | _, t => t
  insert_from_tuples query tuples execOutcome

/-- PyPostgreSql.commit: delegate to commit_query on the owned cursor and
connection. -/
def PyPostgreSql.commit (query : List Char) (vals : Option Vals)
    (execOutcome : Option PyErr) : Except PyErr Unit × List DbCall :=
  commit_query query vals execOutcome

/-- The result-shape tag for raw rows. -/
def tupleTag : List Char := ['t', 'u', 'p', 'l', 'e']

/-- The result-shape tag for a data frame. -/
def dfTag : List Char := ['d', 'f']

/-- A pandas data frame built on the output side of select, from the
fetched result and the column names. -/
structure PdFrame where
  data : FetchResult
  columns : List (List Char)
deriving DecidableEq, Repr

/-- What PyPostgreSql.select returns: rows with column names, or a data
frame. -/
inductive SelectReturn where
  | tupleRes (r : FetchResult) (cols : List (List Char))
  | dfRes (d : PdFrame)
deriving DecidableEq, Repr

/-- PyPostgreSql.select: run _select, then shape the result according to
return_type; any other tag falls through both branches and the function
returns None. -/
def PyPostgreSql.select (query : List Char) (cur : Cursor) (n : PyVal)
    (return_type : List Char) :
    Except PyErr (Option SelectReturn) × List DbCall :=
  match _select query cur n with
  | (.error e, calls) => (.error e, calls)
  | (.ok (result, colnames), calls) =>
      if return_type = tupleTag then
        (.ok (Option.some (.tupleRes result colnames)), calls)
      else if return_type = dfTag then
        (.ok (Option.some (.dfRes ⟨result, colnames⟩)), calls)
      else
        (.ok Option.none, calls)

/-- utils.py timewrapper: run the wrapped operation; if it returns, print
the elapsed-time line (an abstract output event, since wall-clock time is
not modelled) and return its result unchanged; if it raises, the print is
skipped and the error propagates.  The wrapped operation is modelled as a
function returning an outcome together with its own output events. -/
def timewrapper {α β ε : Type} (timeEvent : ε)
    (f : α → Except PyErr β × List ε) (a : α) :
    Except PyErr β × List ε :=
  match f a with
  | (.error e, out) => (.error e, out)
  | (.ok b, out) => (.ok b, out ++ [timeEvent])

lemma not_endsWithChar_of_strip_not {q : List Char}
    (h : endsWithChar (pyStrip q) ';' = false) : endsWithChar q ';' = false := by
  by_contra hq
  rw [Bool.not_eq_false, endsWithChar_iff] at hq
  have := pyStrip_getLast hq (by decide)
  rw [← endsWithChar_iff] at this
  rw [this] at h
  exact Bool.true_eq_false.mp h

/-- C1 counterexample: on the input consisting of two semicolons, the
normalizer is in the already-terminated case (the stripped input ends with
a semicolon) and returns the input unchanged, yet the result does not end
with exactly one terminator: the claimed no-duplication guarantee fails. -/
theorem C1_claim_counterexample :
    endsWithChar (pyStrip [';', ';']) ';' = true ∧
    check_punc [';', ';'] = [';', ';'] ∧
    endsWithExactlyOneTerminator (check_punc [';', ';']) = false := by
  decide

/-- C1 (amended): when the stripped input already ends with a terminator
the normalizer returns the input unchanged, preserving any duplicated
terminators or trailing whitespace already present; when it does not, the
normalizer appends exactly one terminator and the result then ends with
exactly one terminator. -/
theorem C1_normalizer_amended (q : List Char) :
    (endsWithChar (pyStrip q) ';' = true → check_punc q = q) ∧
    (endsWithChar (pyStrip q) ';' = false →
      check_punc q = q ++ [';'] ∧
      endsWithExactlyOneTerminator (check_punc q) = true) := by
  refine ⟨check_punc_of_terminated, fun h => ⟨check_punc_of_unterminated h, ?_⟩⟩
  rw [check_punc_of_unterminated h]
  have hq := not_endsWithChar_of_strip_not h
  rw [endsWithChar] at hq
  simp only [endsWithExactlyOneTerminator, endsWithChar, Bool.and_eq_true,
    Bool.not_eq_true']
  constructor
  · simp
  · simpa using hq

theorem C1_normalizer_amended_witness :
    check_punc ['a'] = ['a', ';'] ∧
    endsWithExactlyOneTerminator (check_punc ['a']) = true ∧
    check_punc ['b', ';'] = ['b', ';'] :=
  ⟨((C1_normalizer_amended ['a']).2 (by decide)).1,
   ((C1_normalizer_amended ['a']).2 (by decide)).2,
   (C1_normalizer_amended ['b', ';']).1 (by decide)⟩

/-- C8: the query normalizer is idempotent: applying check_punc twice
yields the same result as applying it once. -/
theorem C8_check_punc_idempotent (q : List Char) :
    check_punc (check_punc q) = check_punc q := by
  by_cases h : endsWithChar (pyStrip q) ';' = true
  · rw [check_punc_of_terminated h, check_punc_of_terminated h]
  · rw [Bool.not_eq_true] at h
    rw [check_punc_of_unterminated h]
    exact check_punc_of_terminated (pyStrip_ends_of_append_semi q)

/-- C2: for any count selector that is not an integer in the Python sense,
_select raises ValueError with an empty driver trace (no execute, fetch or
metadata call), and the read operation propagates that error, likewise
without contacting the driver. -/
theorem C2_invalid_count_fails_fast (q : List Char) (cur : Cursor)
    (rt : List Char) (v : PyVal) (h : v.isInstInt = false) :
    _select q cur v = (.error .valueError, []) ∧
    PyPostgreSql.select q cur v rt = (.error .valueError, []) := by
  have h1 : _select q cur v = (.error .valueError, []) := by
    simp [_select, h]
  refine ⟨h1, ?_⟩
  unfold PyPostgreSql.select
  rw [h1]

theorem C2_invalid_count_fails_fast_witness :
    _select ['s'] ⟨[], []⟩ (.str ['x']) = (.error .valueError, []) ∧
    PyPostgreSql.select ['s'] ⟨[], []⟩ (.str ['x']) tupleTag =
      (.error .valueError, []) :=
  C2_invalid_count_fails_fast ['s'] ⟨[], []⟩ tupleTag (.str ['x']) (by decide)

/-- C5: with count selector 1 the read fetches via fetchone and the result
has the single-row shape, while the unbounded sentinel -1 and any other
count yield the list-of-rows shape: the cardinality shape of the one case
differs from the all and N cases. -/
theorem C5_count_one_shape (q : List Char) (cur : Cursor) :
    (_select q cur (.int 1)).1 =
      .ok (.one cur.rows.head?, _get_colnames cur) ∧
    (_select q cur (.int (-1))).1 =
      .ok (.many cur.rows, _get_colnames cur) ∧
    ∀ N : Int, N ≠ 1 → N ≠ -1 →
      (_select q cur (.int N)).1 =
        .ok (.many (cur.rows.take N.toNat), _get_colnames cur) := by
  refine ⟨rfl, rfl, fun N h1 h2 => ?_⟩
  simp [_select, PyVal.isInstInt, PyVal.toInt, h1, h2]

theorem C5_count_one_shape_witness :
    (_select [';'] ⟨[[PyVal.int 5]], []⟩ (.int 2)).1 =
      .ok (.many [[PyVal.int 5]], []) :=
  (C5_count_one_shape [';'] ⟨[[PyVal.int 5]], []⟩).2.2 2 (by decide) (by decide)

/-- C9: a boolean count selector passes the isinstance int check: True
behaves exactly as count 1 and False as count 0 (a fetchmany with size 0
returning an empty list), and the ValueError is raised precisely for the
selectors that are not integers in the Python sense. -/
theorem C9_bool_count (q : List Char) (cur : Cursor) :
    _select q cur (.bool true) = _select q cur (.int 1) ∧
    _select q cur (.bool false) =
      (.ok (.many [], _get_colnames cur),
        [.execute (check_punc q) Option.none, .fetchmany 0, .getDescription]) ∧
    ∀ v : PyVal, ((_select q cur v).1 = .error .valueError ↔ v.isInstInt = false) := by
  refine ⟨rfl, ?_, fun v => ?_⟩
  · simp [_select, PyVal.isInstInt, PyVal.toInt]
  · cases v <;> simp [_select, PyVal.isInstInt]

/-- C3: for any insert statement and any non-empty data source, bulk
insert first normalizes the statement, then submits exactly one
execute_values call carrying all the rows with template None and a fixed
page size of 1000, then commits, and returns nothing; the same holds when
the rows are derived from a non-empty data frame. -/
theorem C3_bulk_insert (q : List Char) (ts : List Row) (d : DataFrame)
    (h : ts ≠ []) (hd : d.values ≠ []) :
    insert_from_tuples q (Option.some ts) Option.none =
      (.ok (), [.executeValues (check_punc q) (Option.some ts) Option.none 1000,
        .commit]) ∧
    PyPostgreSql.insert q (Option.some ts) Option.none Option.none =
      (.ok (), [.executeValues (check_punc q) (Option.some ts) Option.none 1000,
        .commit]) ∧
    PyPostgreSql.insert q Option.none (Option.some d) Option.none =
      (.ok (), [.executeValues (check_punc q) (Option.some (pandas2tuples d))
        Option.none 1000, .commit]) := by
  refine ⟨rfl, rfl, rfl⟩

theorem C3_bulk_insert_witness :
    PyPostgreSql.insert ['q'] (Option.some [[PyVal.int 1]]) Option.none
        Option.none =
      (.ok (), [.executeValues (check_punc ['q']) (Option.some [[PyVal.int 1]])
        Option.none 1000, .commit]) :=
  (C3_bulk_insert ['q'] [[PyVal.int 1]] ⟨[[PyVal.int 2]]⟩ (by decide)
    (by decide)).2.1

/-- C4: when the execute call of the write/commit operation fails with a
driver error, that error is the outcome, the driver trace holds only the
execute call — neither a commit nor a rollback is issued — and the class
method is exactly the helper. -/
theorem C4_execute_error_no_commit (q : List Char) (vals : Option Vals)
    (e : PyErr) :
    commit_query q vals (Option.some e) =
      (.error e, [.execute (check_punc q) vals]) ∧
    DbCall.commit ∉ (commit_query q vals (Option.some e)).2 ∧
    DbCall.rollback ∉ (commit_query q vals (Option.some e)).2 ∧
    PyPostgreSql.commit q vals (Option.some e) =
      commit_query q vals (Option.some e) := by
  refine ⟨rfl, ?_, ?_, rfl⟩ <;> simp [commit_query]

/-- C6: the timing wrapper returns the wrapped operation's outcome
unchanged; when the wrapped call succeeds the timing line is printed after
its own output, and when it fails the error propagates unmodified with the
timing print skipped. -/
theorem C6_timewrapper_transparent (α β ε : Type) (te : ε)
    (f : α → Except PyErr β × List ε) (a : α) :
    (timewrapper te f a).1 = (f a).1 ∧
    (∀ e out, f a = (.error e, out) → timewrapper te f a = (.error e, out)) ∧
    (∀ b out, f a = (.ok b, out) → timewrapper te f a = (.ok b, out ++ [te])) := by
  refine ⟨?_, fun e out h => ?_, fun b out h => ?_⟩
  · rcases h : f a with ⟨r, out⟩
    cases r <;> simp [timewrapper, h]
  · simp [timewrapper, h]
  · simp [timewrapper, h]

theorem C6_timewrapper_transparent_witness :
    timewrapper (0 : Nat) (fun _ : Nat => (Except.ok true, ([] : List Nat))) 7 =
      (Except.ok true, [0]) :=
  (C6_timewrapper_transparent Nat Bool Nat 0
    (fun _ : Nat => (Except.ok true, ([] : List Nat))) 7).2.2 true [] rfl

/-- C7: when both a tuple sequence and a data frame are supplied to
insert, the tuple sequence is the data source and the frame is ignored:
the call behaves exactly as if no frame had been passed, and the
execute_values call carries the tuple sequence. -/
theorem C7_tuples_win_over_df (q : List Char) (ts : List Row) (d : DataFrame)
    (o : Option PyErr) :
    PyPostgreSql.insert q (Option.some ts) (Option.some d) o =
      PyPostgreSql.insert q (Option.some ts) Option.none o ∧
    PyPostgreSql.insert q (Option.some ts) (Option.some d) o =
      insert_from_tuples q (Option.some ts) o := by
  exact ⟨rfl, rfl⟩

/-- C10: a read with a result-shape tag that is neither the tuple tag nor
the data-frame tag still executes the query and reads the metadata — the
driver trace equals the full _select trace — but the method returns None,
silently discarding the fetched rows. -/
theorem C10_unknown_return_type (q : List Char) (cur : Cursor) (n : PyVal)
    (rt : List Char) (hn : n.isInstInt = true) (h1 : rt ≠ tupleTag)
    (h2 : rt ≠ dfTag) :
    (PyPostgreSql.select q cur n rt).1 = .ok Option.none ∧
    (PyPostgreSql.select q cur n rt).2 = (_select q cur n).2 ∧
    DbCall.execute (check_punc q) Option.none ∈ (PyPostgreSql.select q cur n rt).2 ∧
    DbCall.getDescription ∈ (PyPostgreSql.select q cur n rt).2 := by
  have hs : ∃ fc r, _select q cur n =
      (Except.ok (r, _get_colnames cur),
        [DbCall.execute (check_punc q) Option.none, fc, DbCall.getDescription]) := by
    unfold _select
    rw [if_pos hn]
    exact ⟨_, _, rfl⟩
  obtain ⟨fc, r, hs⟩ := hs
  unfold PyPostgreSql.select
  rw [hs]
  simp [h1, h2]

theorem C10_unknown_return_type_witness :
    (PyPostgreSql.select [';'] ⟨[], []⟩ (.int (-1)) ['x']).1 =
      .ok Option.none :=
  (C10_unknown_return_type [';'] ⟨[], []⟩ (.int (-1)) ['x'] (by decide)
    (by decide) (by decide)).1

end PPSQL
